import Mathlib

/-!
Verification of the FRENZ LSL bridge (`frenz_lsl_bridge.py`) against its
natural-language specification.

The bridge is a supervised child process: it reads one JSON configuration
line from stdin, spawns a stop-listener thread, drives an opaque device
session through connect → wait-for-data → stream → stop, fans samples out
to a fixed catalog of LSL outlets, and reports JSON status lines on stdout.

This file shallowly embeds the program.  External collaborators
(`json.loads`, `float(...)`, the `frenztoolkit` streamer, `pylsl`) are
opaque in the source and are therefore modelled as oracle parameters or as
environment fields that record the outcome of each external call.  The
main controller is embedded as a trace function: given an environment
describing the outcome of every external interaction, it produces the
ordered list of observable events (status emissions, stdin reads, thread
start, streamer stop calls, process exit).
-/

namespace FrenzBridge

/-- A status message, mirroring the JSON status dicts the source emits.
Each constructor corresponds to one family of `emit({...})` calls in
`frenz_lsl_bridge.py`. -/
inductive Status where
  | waitingForConfig
  | bootstrapping (phase : String)
  | connecting (deviceId : String) (phase : Option String)
  | streaming (streams : List String) (sampleCount : Nat)
  | stopped
  | error (message : String)
  deriving DecidableEq, Repr

/-- Observable events of the main controller, in program order:
status emissions, the config-line read, starting the stop-listener
thread, the streamer lifecycle calls, outlet creation, process exit
(`exitCode` for `sys.exit` / normal return, `crash` for an uncaught
exception that kills the process with a traceback and non-zero status). -/
inductive Ev where
  | emit (s : Status)
  | readLine
  | startListener
  | mkStreamer
  | startStreamer
  | stopStreamer
  | mkOutlets
  | exitCode (n : Nat)
  | crash
  deriving DecidableEq, Repr

/-! ## stdin listener (`stdin_listener`, lines 35-45)

The listener iterates over stdin lines.  A line whose
`strip().lower()` equals `"stop"` sets the shutdown event and returns.
Falling off the loop (end of stream) or an exception from reading both
reach a final `shutdown_event.set()`.  We model the control input as the
finite list of lines available before the stream ends, together with how
it ends (clean end-of-stream or a read error); the listener returns the
number of lines it consumed and whether it set the shutdown event. -/

/-- How the control-input stream ends once its lines are exhausted. -/
inductive StreamEnd where
  | eof
  | readError
  deriving DecidableEq, Repr

/-- Python `str.strip()`: removes leading and trailing whitespace.
(Python also strips `\x0b`/`\x0c`; the control protocol never contains
those, and the claims only involve spaces, tabs and newlines.) -/
def pyStrip (s : String) : String :=
  ⟨((s.data.dropWhile Char.isWhitespace).reverse.dropWhile
      Char.isWhitespace).reverse⟩

/-- Python `str.lower()` (ASCII case folding; the comparison target is
the ASCII word `"stop"`). -/
def pyLower (s : String) : String := ⟨s.data.map Char.toLower⟩

/-- Python `line.strip().lower()` applied to a control line. -/
def normLine (l : String) : String := pyLower (pyStrip l)

/-- `stdin_listener`: consumes lines until the first `"stop"` line (after
trimming and lowercasing) or until the stream ends; returns
(lines consumed, shutdown event set).  The `except`/fallthrough branches
of the source both set the event, so the stream-end kind does not change
the outcome. -/
def stdin_listener (lines : List String) (e : StreamEnd) : Nat × Bool :=
  match lines with
  | [] => (0, true)
  | l :: ls =>
    if normLine l = "stop" then (1, true)
    else
      let r := stdin_listener ls e
      (r.1 + 1, r.2)

/-! ## Outlet registry (`create_outlets`, lines 48-90) -/

/-- LSL channel formats used by the catalog (`pylsl.cf_float32` /
`pylsl.cf_string`). -/
inductive ChannelFormat where
  | float32
  | string
  deriving DecidableEq, Repr

/-- One entry of the `stream_defs` table:
(suffix, stream_type, channel_count, nominal_srate, channel_format). -/
structure StreamDef where
  suffix : String
  streamType : String
  channelCount : Nat
  nominalSrate : Rat
  channelFormat : ChannelFormat
  deriving DecidableEq, Repr

/-- The fixed `stream_defs` table from `create_outlets`, in source order. -/
def stream_defs : List StreamDef :=
  [ ⟨"_EEG_raw", "EEG", 7, 125, .float32⟩
  , ⟨"_PPG_raw", "PPG", 4, 25, .float32⟩
  , ⟨"_IMU_raw", "IMU", 4, 50, .float32⟩
  , ⟨"_EEG_filtered", "EEG", 7, 125, .float32⟩
  , ⟨"_EOG_filtered", "EOG", 2, 125, .float32⟩
  , ⟨"_EMG_filtered", "EMG", 2, 125, .float32⟩
  , ⟨"_focus", "Metrics", 1, 0, .float32⟩
  , ⟨"_sleep_stage", "Metrics", 1, 0, .float32⟩
  , ⟨"_poas", "Metrics", 1, 0, .float32⟩
  , ⟨"_POSTURE", "Markers", 1, 0, .string⟩
  , ⟨"_signal_quality", "Quality", 1, 0, .float32⟩
  , ⟨"_alpha", "EEG", 5, 0, .float32⟩
  , ⟨"_beta", "EEG", 5, 0, .float32⟩
  , ⟨"_theta", "EEG", 5, 0, .float32⟩
  , ⟨"_gamma", "EEG", 5, 0, .float32⟩
  , ⟨"_delta", "EEG", 5, 0, .float32⟩ ]

/-- A created outlet: the catalog row plus the bound sink's name and
source identifier (`pylsl.StreamInfo` arguments). -/
structure Outlet where
  suffix : String
  name : String
  sourceId : String
  streamType : String
  channelCount : Nat
  nominalSrate : Rat
  channelFormat : ChannelFormat
  deriving DecidableEq, Repr

/-- `create_outlets(device_id)`: binds every `stream_defs` entry to a sink
named `device_id + suffix` with source id
`"frenz-bridge-" + device_id + suffix`. -/
def create_outlets (device_id : String) : List Outlet :=
  stream_defs.map fun d =>
    { suffix := d.suffix
      name := device_id ++ d.suffix
      sourceId := "frenz-bridge-" ++ device_id ++ d.suffix
      streamType := d.streamType
      channelCount := d.channelCount
      nominalSrate := d.nominalSrate
      channelFormat := d.channelFormat }

/-! ## Score/metric fan-out (`push_scores`, lines 148-198)

`push_scores` reads `streamer.SCORES` (a dict snapshot, modelled as an
association list over an abstract Python-value type `V`) and pushes to
the metric outlets.  The Python built-ins it calls are opaque externals
and enter as oracles: `pyFloat v` is `float(v)` (`none` models a raised
`TypeError`/`ValueError`, which the source catches), `pyIter v` is
iterating over `v` (`none` models `TypeError: not iterable`, also
caught), `pyStr` is `str(v)` (total).  `outlets` always contains every
suffix after `create_outlets`, so the `outlets.get(suffix)` guards in
the source never fail; the model elides them.  The second component of
the result is the list of statuses emitted during the call: the source
body contains no `emit` call, so it is `[]` on every input. -/

/-- One sample pushed to an outlet: a float vector or a string vector. -/
inductive Sample (F : Type) where
  | floats (xs : List F)
  | strs (xs : List String)
  deriving DecidableEq, Repr

/-- The oracles for the opaque Python built-ins used by `push_scores`. -/
structure PyOps (V F : Type) where
  pyFloat : V → Option F
  pyIter : V → Option (List V)
  pyStr : V → String

/-- `scores.get(key)` on the association-list snapshot of the dict. -/
def getScore {V : Type} (scores : List (String × V)) (k : String) : Option V :=
  (scores.find? (·.1 = k)).map (·.2)

/-- The snapshot with every entry for one key removed; used to state
that dropping a malformed field leaves the rest of the fan-out
unchanged. -/
def eraseKey {V : Type} (scores : List (String × V)) (key : String) :
    List (String × V) :=
  scores.filter fun e => e.1 ≠ key

/-- The `scalar_map` table of `push_scores`: (suffix, SCORES key). -/
def scalar_map : List (String × String) :=
  [ ("_focus", "focus_score")
  , ("_sleep_stage", "sleep_stage")
  , ("_poas", "poas")
  , ("_signal_quality", "sqc_scores") ]

/-- The `band_map` table of `push_scores`: (suffix, SCORES key). -/
def band_map : List (String × String) :=
  [ ("_alpha", "alpha")
  , ("_beta", "beta")
  , ("_theta", "theta")
  , ("_gamma", "gamma")
  , ("_delta", "delta") ]

/-- One iteration of the scalar-metric loop: pushes `[float(val)]` when
the key is present and the coercion succeeds, else pushes nothing
(`try ... except (TypeError, ValueError): pass`). -/
def scalarPush {V F : Type} (ops : PyOps V F) (scores : List (String × V))
    (p : String × String) : Option (String × Sample F) :=
  (getScore scores p.2).bind fun v =>
    (ops.pyFloat v).map fun f => (p.1, Sample.floats [f])

/-- The posture push: `[str(posture)]` whenever the key is present. -/
def posturePush {V F : Type} (ops : PyOps V F) (scores : List (String × V)) :
    List (String × Sample F) :=
  match getScore scores "posture" with
  | some v => [("_POSTURE", Sample.strs [ops.pyStr v])]
  | none => []

/-- One iteration of the spectral-band loop: coerces the whole list
first (`[float(v) for v in val]`), then pushes only when the coerced
list has exactly 5 elements; a failed iteration or element coercion
raises inside the `try` and pushes nothing. -/
def bandPush {V F : Type} (ops : PyOps V F) (scores : List (String × V))
    (p : String × String) : Option (String × Sample F) :=
  (getScore scores p.2).bind fun v =>
    (ops.pyIter v).bind fun elts =>
      (elts.mapM ops.pyFloat).bind fun data =>
        if data.length = 5 then some (p.1, Sample.floats data) else none

/-- `push_scores`: returns the ordered pushes of one call together with
the statuses it emits (always none).  `if not scores: return` makes an
empty snapshot a no-op. -/
def push_scores {V F : Type} (ops : PyOps V F) (scores : List (String × V)) :
    List (String × Sample F) × List Status :=
  if scores.isEmpty then ([], [])
  else
    ( scalar_map.filterMap (scalarPush ops scores)
        ++ posturePush ops scores
        ++ band_map.filterMap (bandPush ops scores)
    , [] )

/-- A concrete instantiation of the opaque Python built-ins over string
values, used to evaluate the `push_scores` theorems on closed inputs:
`float(s)` fails exactly on `"nan-like"` inputs modelled by the literal
`"nan"` and otherwise yields the length of the string; iteration yields
the one-character substrings; `str` is the identity. -/
def ops0 : PyOps String Nat :=
  { pyFloat := fun s => if s = "nan" then none else some s.length
  , pyIter := fun s => some (s.data.map fun c => String.singleton c)
  , pyStr := fun s => s }

/-! ## The data-wait loop (`main`, lines 271-276)

`while not shutdown_event.is_set() and time.time() - wait_start < 30:`
with a `time.sleep(0.5)` per iteration.  Time is modelled in half-second
ticks: the check at tick `k` happens at elapsed time `0.5 * k` seconds,
so the time guard `< 30` holds exactly for `k < 60` and the loop makes
at most 60 data polls (2 Hz for 30 seconds).  `sd k` is the state of the
shutdown event at tick `k`; `dev k` is the snapshot of `streamer.DATA`
at tick `k`. -/

/-- The part of `streamer.DATA` the wait condition looks at:
the truthiness of the `DATA` dict and `DATA.get("RAW", {}).get("EEG")`
(`none` models an absent key or a `None` value; `some rows` a present
array with the given rows).  In states the device SDK actually produces,
`nonEmpty = false` forces `rawEEG = none`; the model does not need that
restriction. -/
structure DevData where
  nonEmpty : Bool
  rawEEG : Option (List (List Rat))
  deriving DecidableEq, Repr

/-- The wait-loop break condition:
`streamer.DATA and streamer.DATA.get("RAW", {}).get("EEG") is not None`.
Note it tests key presence (`is not None`), not row count. -/
def eegCheck (d : DevData) : Bool := d.nonEmpty && d.rawEEG.isSome

/-- How the wait loop exited: shutdown observed at tick `k`, the 30 s
time guard failing, or the break on the data condition at tick `k`. -/
inductive WaitExit where
  | shutdown (k : Nat)
  | timeout
  | found (k : Nat)
  deriving DecidableEq, Repr

/-- The wait loop from tick `k` with `left` ticks of time budget
remaining (`left = 60 - k` at entry): the shutdown check runs first;
the time guard fails when the budget is exhausted; otherwise the data
condition breaks the loop or the next tick begins. -/
def waitFrom (sd : Nat → Bool) (dev : Nat → DevData) :
    Nat → Nat → WaitExit
  | 0, k => if sd k then .shutdown k else .timeout
  | left + 1, k =>
    if sd k then .shutdown k
    else if eegCheck (dev k) then .found k
    else waitFrom sd dev left (k + 1)

/-- The full wait loop: 60 half-second ticks of budget from tick 0. -/
def waitLoop (sd : Nat → Bool) (dev : Nat → DevData) : WaitExit :=
  waitFrom sd dev 60 0

/-! ## The streaming loop (`main`, lines 302-328)

Each iteration runs the three push functions inside a `try`; `ok` means
the iteration completed and `sample_count += 1` ran, `exn m` means some
push raised and the `except` emitted a `Push error` status instead.  The
periodic status emission depends on wall time; `due k` tells whether
`now - last_status_time >= STATUS_INTERVAL` held at the end of iteration
`k`.  The loop runs until the shutdown event is observed at the top of
an iteration; a terminating run therefore performs a finite list of
iterations. -/

/-- Outcome of one streaming-loop iteration body. -/
inductive IterOut where
  | ok
  | exn (msg : String)
  deriving DecidableEq, Repr

/-- Whether an iteration completed without raising. -/
def IterOut.isOk : IterOut → Bool
  | .ok => true
  | .exn _ => false

/-- The streaming loop from iteration index `k` with current
`sample_count = cnt`: returns the emitted events and the final
`sample_count`. -/
def loopGo (streams : List String) (due : Nat → Bool) :
    List IterOut → Nat → Nat → List Ev × Nat
  | [], _, cnt => ([], cnt)
  | o :: rest, k, cnt =>
    let cnt' := match o with
      | .ok => cnt + 1
      | .exn _ => cnt
    let evs1 : List Ev := match o with
      | .ok => []
      | .exn m => [.emit (.error ("Push error: " ++ m))]
    let evs2 : List Ev := if due k then [.emit (.streaming streams cnt')] else []
    let r := loopGo streams due rest (k + 1) cnt'
    (evs1 ++ evs2 ++ r.1, r.2)

/-! ## The main controller (`main`, lines 201-338)

`main` is embedded as a trace function.  The environment records the
outcome of every external interaction in program order: the config line
`sys.stdin.readline()` returned, the result of `json.loads` on it, the
`frenztoolkit` import, the `Streamer(...)` constructor, `streamer.start()`,
the shutdown-flag states at each check point, the `streamer.DATA`
snapshots during the wait loop, `create_outlets`, and the streaming-loop
iterations.  `Option String` fields are `some msg` when the call raised
with message `msg`.  The shutdown event is set asynchronously (listener
thread, OS signals); each flag field/function gives its observed value
at the corresponding check, so every interleaving of setters corresponds
to some environment. -/

/-- The result of `json.loads(config_line)` followed by the two
subscriptions.  `decodeError`: `json.loads` raised `JSONDecodeError`
(caught at line 224).  `nonDict`: `json.loads` succeeded with a value
that is not an object (list, number, string, `null`, bool); the
subscription `config["device_id"]` then raises `TypeError`, which the
`except (json.JSONDecodeError, KeyError)` clause does not catch.
`dict kvs`: an object, modelled as an association list whose values are
carried as the strings they are later formatted to. -/
inductive LoadResult where
  | decodeError (msg : String)
  | nonDict
  | dict (kvs : List (String × String))
  deriving DecidableEq, Repr

/-- Environment of the streaming loop: the completed iterations before
the shutdown event is observed at the top of the loop, the periodic
status-emission due flags, and `endBy = some m` when the loop instead
ended by an exception escaping the `while` body (caught at line 330). -/
structure LoopEnv where
  iters : List IterOut
  due : Nat → Bool
  endBy : Option String

/-- Environment describing one terminating run of `main`: the outcome of
every external call and every observed shutdown-flag state, in program
order. -/
structure Env where
  configLine : String
  loads : LoadResult
  importErr : Option String
  sdAfterImport : Bool
  createErr : Option String
  sdAfterCreate : Bool
  startErr : Option String
  sdTick : Nat → Bool
  devAt : Nat → DevData
  sdAfterWait : Bool
  outletErr : Option String
  loop : LoopEnv
  stopRaises : Bool

/-- Streaming phase (lines 286-338): outlet creation, the initial
`streaming` status, the loop, and the `finally` block.  On outlet
failure the source emits `error`, best-effort stops the streamer and
exits 1; otherwise the loop runs and the `finally` block stops the
streamer (swallowing any error — `Env.stopRaises` never blocks the
subsequent events) and emits the final `stopped`. -/
def streamPhase (env : Env) (did : String) : List Ev :=
  match env.outletErr with
  | some m =>
    [ .emit (.error ("Failed to create LSL outlets: " ++ m))
    , .stopStreamer, .exitCode 1 ]
  | none =>
    let streams := (create_outlets did).map (·.suffix)
    [.mkOutlets, .emit (.streaming streams 0)]
      ++ (loopGo streams env.loop.due env.loop.iters 0 0).1
      ++ (match env.loop.endBy with
          | some m => [.emit (.error ("Streaming error: " ++ m))]
          | none => [])
      ++ [.stopStreamer, .emit .stopped, .exitCode 0]

/-- The shutdown flag as observed by the re-check at line 278: true when
the wait loop itself exited on the flag, or when the flag was set by the
time of the re-check. -/
def waitSd (env : Env) : Bool :=
  match waitLoop env.sdTick env.devAt with
  | .shutdown _ => true
  | _ => env.sdAfterWait

/-- Wait phase (lines 270-299): the `waiting_for_data` status, the wait
loop (which emits nothing), then the shutdown re-check at line 278,
whose branch stops the streamer and emits `stopped`. -/
def waitPhase (env : Env) (did : String) : List Ev :=
  [.emit (.connecting did (some "waiting_for_data"))]
    ++ (if waitSd env then [.stopStreamer, .emit .stopped, .exitCode 0]
        else [.emit (.bootstrapping "creating_outlets")] ++ streamPhase env did)

/-- Session phase (lines 244-268): the `connecting` status, the
`Streamer(...)` constructor, the shutdown check at line 259, and
`streamer.start()`.  Note: neither the constructor-failure exit, the
line 259 `stopped` return, nor the start-failure exit calls
`streamer.stop()`. -/
def sessionPhase (env : Env) (did : String) : List Ev :=
  [.emit (.connecting did none)]
    ++ match env.createErr with
    | some m => [.emit (.error ("Failed to create streamer: " ++ m)), .exitCode 1]
    | none =>
      [.mkStreamer]
        ++ (if env.sdAfterCreate then [.emit .stopped, .exitCode 0]
            else match env.startErr with
              | some m =>
                [.emit (.error ("Failed to start streamer: " ++ m)), .exitCode 1]
              | none => [.startStreamer] ++ waitPhase env did)

/-- After the config is accepted (lines 229-242): the listener thread is
started, the import status emitted, the import attempted, and the
shutdown flag checked at line 240. -/
def postConfig (env : Env) (did : String) : List Ev :=
  [.startListener, .emit (.bootstrapping "importing")]
    ++ match env.importErr with
    | some m =>
      [.emit (.error ("Failed to import frenztoolkit: " ++ m)), .exitCode 1]
    | none =>
      if env.sdAfterImport then [.emit .stopped, .exitCode 0]
      else sessionPhase env did

/-- Config handling (lines 216-226): the empty-line check, `json.loads`,
and the two subscriptions.  `JSONDecodeError` and `KeyError` are caught
and reported (the modelled messages elide Python`s exact quoting); the
`TypeError` raised by subscripting a non-object value is not caught, so
the process dies with a traceback and exit status 1 without emitting any
status. -/
def configPhase (env : Env) : List Ev :=
  if pyStrip env.configLine = "" then
    [.emit (.error "Empty config received on stdin"), .exitCode 1]
  else
    match env.loads with
    | .decodeError m => [.emit (.error ("Invalid config: " ++ m)), .exitCode 1]
    | .nonDict => [.crash]
    | .dict kvs =>
      match kvs.find? (·.1 = "device_id") with
      | none => [.emit (.error "Invalid config: KeyError(device_id)"), .exitCode 1]
      | some p =>
        match kvs.find? (·.1 = "product_key") with
        | none => [.emit (.error "Invalid config: KeyError(product_key)"), .exitCode 1]
        | some _ => postConfig env p.2

/-- The full `main` trace: the initial `waiting_for_config` status, the
single config-line read, then the config-dependent continuation. -/
def mainTrace (env : Env) : List Ev :=
  [.emit .waitingForConfig, .readLine] ++ configPhase env

/-- The number of `streamer.stop()` invocations in a trace. -/
def countStop (t : List Ev) : Nat := t.count .stopStreamer

/-- The statuses emitted along a trace, in order. -/
def emitted (t : List Ev) : List Status :=
  t.filterMap fun e => match e with
    | .emit s => some s
    | _ => none

/-- The `sample_count` values carried by `streaming` statuses, in order. -/
def streamingCounts (t : List Ev) : List Nat :=
  t.filterMap fun e => match e with
    | .emit (.streaming _ n) => some n
    | _ => none

/-! ## Status emission (`emit`, lines 25-32)

`emit` serializes the status dict with
`json.dumps(status_dict, separators=(",", ":"))`, writes the line plus a
newline and flushes; any exception from serialization, write or flush is
swallowed (`except Exception: pass`).  The status dicts this program
passes hold only strings, one non-negative integer (`sample_count`) and
one list of strings (`streams`), so the value model covers exactly those
shapes.  The serializer models `json.dumps` JSON string escaping: every
control character (in particular a raw newline) is replaced by an escape
sequence.  (Python additionally `\u`-escapes non-ASCII characters under
`ensure_ascii`; that difference concerns no control character and is
elided.)  `writeOk` records whether the write raised; the result is the
list of lines actually written. -/

/-- JSON values occurring in the status dicts of this program. -/
inductive JVal where
  | jnum (n : Nat)
  | jstr (s : String)
  | jstrArr (xs : List String)
  deriving DecidableEq, Repr

/-- JSON escaping of one character, as `json.dumps` performs it inside
string literals: the two mandatory escapes, the short escapes for the
common control characters, `\u00XX` for the remaining control
characters, and the character itself otherwise. -/
def escapeChar (c : Char) : String :=
  if c = '"' then "\\\""
  else if c = '\\' then "\\\\"
  else if c = '\n' then "\\n"
  else if c = '\r' then "\\r"
  else if c = '\t' then "\\t"
  else if c = '\x08' then "\\b"
  else if c = '\x0c' then "\\f"
  else if c.val < 0x20 then
    "\\u00" ++ ⟨[Nat.digitChar (c.val.toNat / 16), Nat.digitChar (c.val.toNat % 16)]⟩
  else String.singleton c

/-- JSON escaping of a character sequence. -/
def escapeList : List Char → List Char
  | [] => []
  | c :: cs => (escapeChar c).data ++ escapeList cs

/-- A JSON string literal: quotes around the escaped content. -/
def quoteStr (s : String) : String := "\"" ++ ⟨escapeList s.data⟩ ++ "\""

/-- The `separators=(",", ":")` item joiner: comma with no whitespace. -/
def joinComma : List String → String
  | [] => ""
  | [x] => x
  | x :: y :: xs => x ++ "," ++ joinComma (y :: xs)

/-- Serialization of one JSON value. -/
def dumpsVal : JVal → String
  | .jnum n => Nat.repr n
  | .jstr s => quoteStr s
  | .jstrArr xs => "[" ++ joinComma (xs.map quoteStr) ++ "]"

/-- `json.dumps(d, separators=(",", ":"))` on a status dict: compact
object syntax. -/
def dumps (d : List (String × JVal)) : String :=
  "\x7b" ++ joinComma (d.map fun kv => quoteStr kv.1 ++ ":" ++ dumpsVal kv.2) ++ "\x7d"

/-- `emit`: on a successful write, exactly the serialized line plus the
line terminator reaches stdout; when the write raises, the exception is
swallowed and nothing is written.  In both cases the call returns
normally. -/
def emit (writeOk : Bool) (d : List (String × JVal)) : List String :=
  if writeOk then [dumps d ++ "\n"] else []

/-- The status dict each `Status` stands for, mirroring the literal
dicts at the `emit` call sites of the source. -/
def statusDict : Status → List (String × JVal)
  | .waitingForConfig => [("status", .jstr "waiting_for_config")]
  | .bootstrapping ph =>
    [("status", .jstr "bootstrapping"), ("phase", .jstr ph)]
      ++ (if ph = "importing" then [("package", .jstr "frenztoolkit")] else [])
  | .connecting did ph =>
    [("status", .jstr "connecting"), ("device_id", .jstr did)]
      ++ (match ph with
          | some p => [("phase", .jstr p)]
          | none => [])
  | .streaming streams n =>
    [ ("status", .jstr "streaming")
    , ("streams", .jstrArr streams)
    , ("sample_count", .jnum n) ]
  | .stopped => [("status", .jstr "stopped")]
  | .error m => [("status", .jstr "error"), ("message", .jstr m)]

/-- The number of stdin line reads performed by the main controller. -/
def countRead (t : List Ev) : Nat := t.count .readLine

/-- A concrete baseline environment used to evaluate the theorems on a
closed run: a valid configuration, every external call succeeding, no
shutdown request until the streaming loop observes it immediately. -/
def env0 : Env :=
  { configLine := "cfg"
  , loads := .dict [("device_id", "dev1"), ("product_key", "pk")]
  , importErr := none, sdAfterImport := false
  , createErr := none, sdAfterCreate := false
  , startErr := none
  , sdTick := fun _ => false
  , devAt := fun _ => ⟨false, none⟩
  , sdAfterWait := false
  , outletErr := none
  , loop := ⟨[], fun _ => false, none⟩
  , stopRaises := false }

/-! ## Theorems -/

/-- Claim C5: for every control-input line read by the stop listener,
the listener sets the ShutdownEvent and exits exactly when the line,
after trimming whitespace and lowercasing, equals `"stop"`; and if the
control input closes (end-of-stream or read error) the listener likewise
sets the ShutdownEvent, identically to an explicit stop.  Formally: the
listener always ends with the event set; either the input splits around
a first `"stop"` line and the listener consumed exactly the lines up to
and including it, or no line normalizes to `"stop"` and the listener
consumed every line before the stream end (of either kind) triggered the
final set. -/
theorem claim5_listener (lines : List String) (e : StreamEnd) :
    (stdin_listener lines e).2 = true ∧
    ((∃ pre l suf, lines = pre ++ l :: suf ∧
        (∀ x ∈ pre, normLine x ≠ "stop") ∧ normLine l = "stop" ∧
        (stdin_listener lines e).1 = pre.length + 1)
      ∨ ((∀ x ∈ lines, normLine x ≠ "stop") ∧
         (stdin_listener lines e).1 = lines.length)) := by
  induction lines with
  | nil => simp [stdin_listener]
  | cons l ls ih =>
    by_cases h : normLine l = "stop"
    · exact ⟨by simp [stdin_listener, h],
        Or.inl ⟨[], l, ls, rfl, by simp, h, by simp [stdin_listener, h]⟩⟩
    · obtain ⟨ih1, ih2⟩ := ih
      refine ⟨by simp [stdin_listener, h, ih1], ?_⟩
      rcases ih2 with ⟨pre, x, suf, hdec, hpre, hx, hn⟩ | ⟨hall, hn⟩
      · refine Or.inl ⟨l :: pre, x, suf, by simp [hdec], ?_, hx,
          by simp [stdin_listener, h, hn]⟩
        intro z hz
        rcases List.mem_cons.mp hz with rfl | hz
        · exact h
        · exact hpre z hz
      · refine Or.inr ⟨?_, by simp [stdin_listener, h, hn]⟩
        intro z hz
        rcases List.mem_cons.mp hz with rfl | hz
        · exact h
        · exact hall z hz

/-- Claim C5 witness: the listener on a concrete input whose second
line normalizes to `"stop"` sets the shutdown event. -/
theorem claim5_listener_w :
    (stdin_listener ["hello", " STOP ", "later"] .eof).2 = true :=
  (claim5_listener ["hello", " STOP ", "later"] .eof).1

/-- Claim C6 counterexample: `create_outlets` constructs 16 outlets, not
15 as claimed — the catalog has 3 raw, 3 filtered, 3 `Metrics` scalars,
1 posture marker, 1 signal quality, and 5 spectral bands. -/
theorem claim6_cex :
    (create_outlets "dev1").length = 16 ∧ (create_outlets "dev1").length ≠ 15 := by
  decide

/-- Claim C6 amended: for every device_id, outlet creation constructs
exactly 16 outlets — raw (3), filtered (3), scalar metrics including
signal quality (4), posture marker (1), spectral bands (5) — and binds
each spec to a sink named `device_id ++ suffix` with source identifier
`"frenz-bridge-" ++ device_id ++ suffix`. -/
theorem claim6_amended (device_id : String) :
    (create_outlets device_id).length = 16 ∧
    (create_outlets device_id).countP
      (fun o => o.suffix ∈ ["_EEG_raw", "_PPG_raw", "_IMU_raw"]) = 3 ∧
    (create_outlets device_id).countP
      (fun o => o.suffix ∈ ["_EEG_filtered", "_EOG_filtered", "_EMG_filtered"]) = 3 ∧
    (create_outlets device_id).countP
      (fun o => o.suffix ∈ ["_focus", "_sleep_stage", "_poas", "_signal_quality"]) = 4 ∧
    (create_outlets device_id).countP (fun o => o.suffix = "_POSTURE") = 1 ∧
    (create_outlets device_id).countP
      (fun o => o.suffix ∈ ["_alpha", "_beta", "_theta", "_gamma", "_delta"]) = 5 ∧
    ∀ o ∈ create_outlets device_id,
      o.name = device_id ++ o.suffix ∧
      o.sourceId = "frenz-bridge-" ++ device_id ++ o.suffix := by
  refine ⟨by simp [create_outlets, stream_defs],
    by simp [create_outlets, stream_defs, List.countP_cons],
    by simp [create_outlets, stream_defs, List.countP_cons],
    by simp [create_outlets, stream_defs, List.countP_cons],
    by simp [create_outlets, stream_defs, List.countP_cons],
    by simp [create_outlets, stream_defs, List.countP_cons], ?_⟩
  intro o ho
  simp only [create_outlets, stream_defs, List.map_cons, List.map_nil,
    List.mem_cons, List.not_mem_nil, or_false] at ho
  rcases ho with rfl | rfl | rfl | rfl | rfl | rfl | rfl | rfl | rfl | rfl |
    rfl | rfl | rfl | rfl | rfl | rfl <;> exact ⟨rfl, rfl⟩

/-- Claim C6 witness: the amended theorem evaluated at the device id
`"dev1"` — 16 outlets, and the first outlet is named `dev1_EEG_raw`. -/
theorem claim6_amended_w :
    (create_outlets "dev1").length = 16 ∧
    (create_outlets "dev1").countP (fun o => o.suffix = "_POSTURE") = 1 :=
  ⟨(claim6_amended "dev1").1, (claim6_amended "dev1").2.2.2.2.1⟩

/-! ### Wait-loop lemmas -/

theorem waitFrom_found (sd : Nat → Bool) (dev : Nat → DevData) :
    ∀ left k j, waitFrom sd dev left k = WaitExit.found j →
      eegCheck (dev j) = true ∧ j < k + left := by
  intro left
  induction left with
  | zero =>
    intro k j h
    simp only [waitFrom] at h
    split at h <;> simp_all
  | succ left ih =>
    intro k j h
    simp only [waitFrom] at h
    split at h
    · simp_all
    · split at h
      · cases h
        refine ⟨by assumption, by omega⟩
      · obtain ⟨h1, h2⟩ := ih (k + 1) j h
        exact ⟨h1, by omega⟩

theorem waitFrom_timeout (sd : Nat → Bool) (dev : Nat → DevData)
    (h1 : ∀ k, sd k = false) (h2 : ∀ k, eegCheck (dev k) = false) :
    ∀ left k, waitFrom sd dev left k = WaitExit.timeout := by
  intro left
  induction left with
  | zero => intro k; simp [waitFrom, h1]
  | succ left ih => intro k; simp [waitFrom, h1, h2, ih]

theorem waitFrom_shutdown (sd : Nat → Bool) (dev : Nat → DevData) :
    ∀ left k j, waitFrom sd dev left k = WaitExit.shutdown j → sd j = true := by
  intro left
  induction left with
  | zero =>
    intro k j h
    simp only [waitFrom] at h
    split at h
    · cases h; assumption
    · cases h
  | succ left ih =>
    intro k j h
    simp only [waitFrom] at h
    split at h
    · cases h; assumption
    · split at h
      · cases h
      · exact ih (k + 1) j h

/-- Claim C3 counterexample: a data source whose very first snapshot
reports a present-but-empty EEG array — zero rows produced — makes the
wait loop exit early at the first poll, because the source tests
`... .get("EEG") is not None`, not the row count.  The claim says the
loop exits early only once at least one row exists. -/
theorem claim3_cex :
    waitLoop (fun _ => false) (fun _ => ⟨true, some []⟩) = WaitExit.found 0 ∧
    (⟨true, some []⟩ : DevData).rawEEG = some [] := by
  decide

/-- Claim C3 amended: the awaiting_data wait loop exits early only when
the data source reports a non-`None` primary raw (EEG) entry — possibly
with zero rows; if that never happens (and no shutdown intervenes), the
loop terminates with the timeout after at most 60 polls of its
half-second tick (30 seconds, ≤2 Hz), and the program proceeds to outlet
creation rather than failing or hanging — for every data source,
including one that never produces EEG data. -/
theorem claim3_amended (sd : Nat → Bool) (dev : Nat → DevData) :
    (∀ j, waitLoop sd dev = WaitExit.found j →
        eegCheck (dev j) = true ∧ j < 60) ∧
    ((∀ k, sd k = false) → (∀ k, eegCheck (dev k) = false) →
        waitLoop sd dev = WaitExit.timeout) ∧
    (∀ (env : Env) (kvs : List (String × String)) (p q : String × String),
        pyStrip env.configLine ≠ "" → env.loads = LoadResult.dict kvs →
        kvs.find? (·.1 = "device_id") = some p →
        kvs.find? (·.1 = "product_key") = some q →
        env.importErr = none → env.sdAfterImport = false →
        env.createErr = none → env.sdAfterCreate = false →
        env.startErr = none →
        (∀ k, env.sdTick k = false) → env.sdAfterWait = false →
        Ev.emit (.bootstrapping "creating_outlets") ∈ mainTrace env) := by
  refine ⟨?_, ?_, ?_⟩
  · intro j h
    have := waitFrom_found sd dev 60 0 j h
    exact ⟨this.1, by omega⟩
  · intro h1 h2
    exact waitFrom_timeout sd dev h1 h2 60 0
  · intro env kvs p q hline hload hdid hpk himp hsd1 hcreate hsd2 hstart hsdt hsdw
    have hnot : waitSd env = false := by
      unfold waitSd
      cases hw : waitLoop env.sdTick env.devAt with
      | shutdown j =>
        have := waitFrom_shutdown env.sdTick env.devAt 60 0 j hw
        simp [hsdt] at this
      | timeout => simpa using hsdw
      | found k => simpa using hsdw
    simp [mainTrace, configPhase, hline, hload, hdid, hpk, postConfig, himp,
      hsd1, sessionPhase, hcreate, hsd2, hstart, waitPhase, hnot]

/-- Claim C3 witness: with no shutdown and a source that never reports
EEG data, the wait loop times out and the concrete run still reaches
outlet creation. -/
theorem claim3_amended_w :
    waitLoop (fun _ => false) (fun _ => ⟨false, none⟩) = WaitExit.timeout ∧
    Ev.emit (.bootstrapping "creating_outlets") ∈ mainTrace
      { configLine := "cfg"
      , loads := .dict [("device_id", "dev1"), ("product_key", "pk")]
      , importErr := none, sdAfterImport := false
      , createErr := none, sdAfterCreate := false
      , startErr := none
      , sdTick := fun _ => false
      , devAt := fun _ => ⟨false, none⟩
      , sdAfterWait := false
      , outletErr := none
      , loop := ⟨[], fun _ => false, none⟩
      , stopRaises := false } :=
  ⟨(claim3_amended (fun _ => false) (fun _ => ⟨false, none⟩)).2.1
      (fun _ => rfl) (fun _ => rfl),
   (claim3_amended (fun _ => false) (fun _ => ⟨false, none⟩)).2.2 _ _ _ _
      (by decide) rfl rfl rfl rfl rfl rfl rfl rfl (fun _ => rfl) rfl⟩

/-! ### Event-shape lemmas for the trace phases -/

theorem loopGo_mem (streams : List String) (due : Nat → Bool) :
    ∀ (iters : List IterOut) (k cnt : Nat),
      ∀ e ∈ (loopGo streams due iters k cnt).1,
        (∃ m, e = Ev.emit (.error m)) ∨
        ∃ n, e = Ev.emit (.streaming streams n) := by
  intro iters
  induction iters with
  | nil =>
    intro k cnt e he
    simp [loopGo] at he
  | cons o rest ih =>
    intro k cnt e he
    cases o with
    | ok =>
      simp only [loopGo, List.nil_append, List.mem_append] at he
      rcases he with he | he
      · by_cases hd : due k
        · simp [hd] at he
          exact Or.inr ⟨_, he⟩
        · simp [hd] at he
      · exact ih _ _ e he
    | exn m =>
      simp only [loopGo, List.mem_append, List.mem_cons, List.not_mem_nil,
        or_false] at he
      rcases he with (he | he) | he
      · exact Or.inl ⟨_, he⟩
      · by_cases hd : due k
        · simp [hd] at he
          exact Or.inr ⟨_, he⟩
        · simp [hd] at he
      · exact ih _ _ e he

theorem loopGo_no_stop (streams : List String) (due : Nat → Bool)
    (iters : List IterOut) (k cnt : Nat) :
    Ev.stopStreamer ∉ (loopGo streams due iters k cnt).1 := by
  intro h
  rcases loopGo_mem streams due iters k cnt _ h with ⟨m, hm⟩ | ⟨n, hn⟩ <;>
    simp_all

theorem loopGo_no_readLine (streams : List String) (due : Nat → Bool)
    (iters : List IterOut) (k cnt : Nat) :
    Ev.readLine ∉ (loopGo streams due iters k cnt).1 := by
  intro h
  rcases loopGo_mem streams due iters k cnt _ h with ⟨m, hm⟩ | ⟨n, hn⟩ <;>
    simp_all

theorem readLine_not_mem_streamPhase (env : Env) (did : String) :
    Ev.readLine ∉ streamPhase env did := by
  cases h : env.outletErr with
  | some m => simp [streamPhase, h]
  | none =>
    cases he : env.loop.endBy <;>
      simp [streamPhase, h, he, loopGo_no_readLine]

theorem readLine_not_mem_waitPhase (env : Env) (did : String) :
    Ev.readLine ∉ waitPhase env did := by
  by_cases h : waitSd env <;>
    simp [waitPhase, h, readLine_not_mem_streamPhase]

theorem readLine_not_mem_sessionPhase (env : Env) (did : String) :
    Ev.readLine ∉ sessionPhase env did := by
  cases h : env.createErr with
  | some m => simp [sessionPhase, h]
  | none =>
    cases h2 : env.sdAfterCreate
    · cases h3 : env.startErr <;>
        simp [sessionPhase, h, h2, h3, readLine_not_mem_waitPhase]
    · simp [sessionPhase, h, h2]

theorem readLine_not_mem_postConfig (env : Env) (did : String) :
    Ev.readLine ∉ postConfig env did := by
  cases h : env.importErr with
  | some m => simp [postConfig, h]
  | none =>
    cases h2 : env.sdAfterImport <;>
      simp [postConfig, h, h2, readLine_not_mem_sessionPhase]

theorem readLine_not_mem_configPhase (env : Env) :
    Ev.readLine ∉ configPhase env := by
  by_cases h : pyStrip env.configLine = ""
  · simp [configPhase, h]
  · cases hl : env.loads with
    | decodeError m => simp [configPhase, h, hl]
    | nonDict => simp [configPhase, h, hl]
    | dict kvs =>
      cases hd : kvs.find? (·.1 = "device_id") with
      | none => simp [configPhase, h, hl, hd]
      | some p =>
        cases hp : kvs.find? (·.1 = "product_key") with
        | none => simp [configPhase, h, hl, hd, hp]
        | some q => simp [configPhase, h, hl, hd, hp,
            readLine_not_mem_postConfig]

/-- Claim C4: under every execution with a valid configuration, the
first status emitted is `waiting_for_config`, and the configuration line
is consumed exactly once by the main controller before the stop-listener
thread begins reading the control input: the trace starts with the
`waiting_for_config` emission and the single stdin read, no further read
by the main controller ever occurs, and the very next event is the
listener-thread start. -/
theorem claim4_config_once (env : Env) (kvs : List (String × String))
    (p q : String × String)
    (hline : pyStrip env.configLine ≠ "")
    (hload : env.loads = LoadResult.dict kvs)
    (hdid : kvs.find? (·.1 = "device_id") = some p)
    (hpk : kvs.find? (·.1 = "product_key") = some q) :
    (emitted (mainTrace env)).head? = some .waitingForConfig ∧
    ∃ rest, mainTrace env = .emit .waitingForConfig :: .readLine :: rest ∧
      Ev.readLine ∉ rest ∧ rest.head? = some .startListener := by
  refine ⟨by simp [mainTrace, emitted], configPhase env, rfl,
    readLine_not_mem_configPhase env, ?_⟩
  simp [configPhase, hline, hload, hdid, hpk, postConfig]

/-- Claim C4 witness: the theorem applied to a concrete valid run. -/
theorem claim4_config_once_w :
    (emitted (mainTrace env0)).head? = some .waitingForConfig ∧
    ∃ rest, mainTrace env0 = .emit .waitingForConfig :: .readLine :: rest ∧
      Ev.readLine ∉ rest ∧ rest.head? = some .startListener :=
  claim4_config_once env0 [("device_id", "dev1"), ("product_key", "pk")]
    ("device_id", "dev1") ("product_key", "pk") (by decide) rfl rfl rfl

/-- Claim C2 counterexample: the first line `"[]"` is valid JSON lacking
the required `device_id` field (`json.loads("[]")` yields a list, not an
object), yet the run emits no `error` status at all: the subscription
`config["device_id"]` raises `TypeError`, which the
`except (json.JSONDecodeError, KeyError)` clause does not catch, so the
process dies with a traceback — non-zero exit, but without the claimed
`error` status line. -/
theorem claim2_cex :
    mainTrace { env0 with configLine := "[]", loads := .nonDict } =
      [.emit .waitingForConfig, .readLine, .crash] := by
  decide

/-- Claim C2 amended: a first control-input line that is empty (or
whitespace), that `json.loads` rejects, or that parses to a JSON object
lacking `device_id` or `product_key`, makes the process emit an `error`
status and exit with status 1, with no retry (the line is read exactly
once in every run); a first line that parses to a non-object JSON value
instead kills the process with an uncaught `TypeError` — still a
non-zero exit and no retry, but with no `error` status emitted. -/
theorem claim2_amended (env : Env) (kvs : List (String × String)) :
    (pyStrip env.configLine = "" →
      mainTrace env = [.emit .waitingForConfig, .readLine,
        .emit (.error "Empty config received on stdin"), .exitCode 1]) ∧
    (∀ m, pyStrip env.configLine ≠ "" → env.loads = LoadResult.decodeError m →
      mainTrace env = [.emit .waitingForConfig, .readLine,
        .emit (.error ("Invalid config: " ++ m)), .exitCode 1]) ∧
    (pyStrip env.configLine ≠ "" → env.loads = LoadResult.dict kvs →
      kvs.find? (·.1 = "device_id") = none →
      mainTrace env = [.emit .waitingForConfig, .readLine,
        .emit (.error "Invalid config: KeyError(device_id)"), .exitCode 1]) ∧
    (∀ p, pyStrip env.configLine ≠ "" → env.loads = LoadResult.dict kvs →
      kvs.find? (·.1 = "device_id") = some p →
      kvs.find? (·.1 = "product_key") = none →
      mainTrace env = [.emit .waitingForConfig, .readLine,
        .emit (.error "Invalid config: KeyError(product_key)"), .exitCode 1]) ∧
    (pyStrip env.configLine ≠ "" → env.loads = LoadResult.nonDict →
      mainTrace env = [.emit .waitingForConfig, .readLine, .crash]) ∧
    countRead (mainTrace env) = 1 := by
  refine ⟨?_, ?_, ?_, ?_, ?_, ?_⟩
  · intro h; simp [mainTrace, configPhase, h]
  · intro m h hl; simp [mainTrace, configPhase, h, hl]
  · intro h hl hd; simp [mainTrace, configPhase, h, hl, hd]
  · intro p h hl hd hp; simp [mainTrace, configPhase, h, hl, hd, hp]
  · intro h hl; simp [mainTrace, configPhase, h, hl]
  · have hnm := readLine_not_mem_configPhase env
    simp [mainTrace, countRead, List.count_cons,
      List.count_eq_zero.mpr hnm]

/-- Claim C2 witness: the amended theorem evaluated on a concrete run
whose first line is rejected by `json.loads`. -/
theorem claim2_amended_w :
    mainTrace
        { env0 with
          configLine := "not json", loads := .decodeError "Expecting value" } =
      [.emit .waitingForConfig, .readLine,
       .emit (.error ("Invalid config: " ++ "Expecting value")), .exitCode 1] :=
  (claim2_amended
      { env0 with
        configLine := "not json", loads := .decodeError "Expecting value" }
      []).2.1
    "Expecting value" (by decide) rfl

theorem emitted_append (a b : List Ev) :
    emitted (a ++ b) = emitted a ++ emitted b := by
  simp [emitted]

theorem countStop_streamPhase (env : Env) (did : String) :
    countStop (streamPhase env did) = 1 := by
  cases h : env.outletErr with
  | some m => simp [streamPhase, h, countStop]
  | none =>
    have hns := loopGo_no_stop ((create_outlets did).map (·.suffix))
      env.loop.due env.loop.iters 0 0
    cases he : env.loop.endBy <;>
      simp [streamPhase, h, he, countStop, List.count_append, List.count_cons,
        List.count_eq_zero.mpr hns]

theorem countStop_waitPhase (env : Env) (did : String) :
    countStop (waitPhase env did) = 1 := by
  by_cases h : waitSd env
  · simp [waitPhase, h, countStop, List.count_cons]
  · have hs := countStop_streamPhase env did
    simp only [countStop] at hs ⊢
    simp [waitPhase, h, List.count_append, List.count_cons, hs]

theorem emitted_waitPhase_last (env : Env) (did : String)
    (h : env.outletErr = none ∨ waitSd env = true) :
    (emitted (waitPhase env did)).getLast? = some Status.stopped := by
  by_cases hw : waitSd env
  · simp [waitPhase, hw, emitted]
  · rcases h with h | h
    · cases he : env.loop.endBy <;>
        simp [waitPhase, hw, streamPhase, h, he, emitted, List.getLast?_cons,
          List.getLast?_append]
    · exact absurd h hw

theorem emitted_waitPhase_last_err (env : Env) (did m : String)
    (h1 : env.outletErr = some m) (h2 : waitSd env = false) :
    (emitted (waitPhase env did)).getLast? =
      some (Status.error ("Failed to create LSL outlets: " ++ m)) := by
  simp [waitPhase, h2, streamPhase, h1, emitted]

/-- Claim C1 counterexample: a run whose session object is successfully
created (the `mkStreamer` event occurs) but whose `streamer.start()`
raises exits through `sys.exit(1)` without ever invoking the session's
stop operation and without a final `stopped` status — contradicting the
claim that every post-creation exit path stops the session exactly once
and ends with `stopped`. -/
theorem claim1_cex :
    mainTrace { env0 with startErr := some "boom" } =
      [.emit .waitingForConfig, .readLine, .startListener,
       .emit (.bootstrapping "importing"), .emit (.connecting "dev1" none),
       .mkStreamer, .emit (.error ("Failed to start streamer: " ++ "boom")),
       .exitCode 1] ∧
    countStop (mainTrace { env0 with startErr := some "boom" }) = 0 := by
  decide

/-- Claim C1 amended: on every exit path taken after the session's start
operation has returned successfully, the program invokes the session's
stop operation exactly once (swallowing any error stop raises — the
trace continues identically whether or not stop fails); the final
emitted status is `stopped` on the shutdown-during-wait path and on
every streaming-loop exit (normal or via error), while on the
outlet-creation failure path the stop still happens exactly once but the
final status is the outlet-creation `error`.  Exit paths taken between
session creation and a successful start (shutdown observed before start,
or start failure) do not invoke stop at all. -/
theorem claim1_amended (env : Env) (kvs : List (String × String))
    (p q : String × String)
    (hline : pyStrip env.configLine ≠ "")
    (hload : env.loads = LoadResult.dict kvs)
    (hdid : kvs.find? (·.1 = "device_id") = some p)
    (hpk : kvs.find? (·.1 = "product_key") = some q)
    (himp : env.importErr = none)
    (hsd1 : env.sdAfterImport = false)
    (hcreate : env.createErr = none)
    (hsd2 : env.sdAfterCreate = false)
    (hstart : env.startErr = none) :
    countStop (mainTrace env) = 1 ∧
    (env.outletErr = none ∨ waitSd env = true →
      (emitted (mainTrace env)).getLast? = some Status.stopped) ∧
    (∀ m, env.outletErr = some m → waitSd env = false →
      (emitted (mainTrace env)).getLast? =
        some (Status.error ("Failed to create LSL outlets: " ++ m))) := by
  have htr : mainTrace env =
      [.emit .waitingForConfig, .readLine, .startListener,
       .emit (.bootstrapping "importing"), .emit (.connecting p.2 none),
       .mkStreamer, .startStreamer] ++ waitPhase env p.2 := by
    simp [mainTrace, configPhase, hline, hload, hdid, hpk, postConfig, himp,
      hsd1, sessionPhase, hcreate, hsd2, hstart]
  refine ⟨?_, ?_, ?_⟩
  · rw [htr]
    have hs := countStop_waitPhase env p.2
    simp only [countStop] at hs ⊢
    simp [List.count_append, List.count_cons, hs]
  · intro h
    rw [htr, emitted_append, List.getLast?_append,
      emitted_waitPhase_last env p.2 h]
    rfl
  · intro m h1 h2
    rw [htr, emitted_append, List.getLast?_append,
      emitted_waitPhase_last_err env p.2 m h1 h2]
    rfl

/-- Claim C1 witness: the amended theorem on the baseline run — stop is
invoked exactly once and the final status is `stopped`. -/
theorem claim1_amended_w :
    countStop (mainTrace env0) = 1 ∧
    (emitted (mainTrace env0)).getLast? = some Status.stopped :=
  ⟨(claim1_amended env0 [("device_id", "dev1"), ("product_key", "pk")]
      ("device_id", "dev1") ("product_key", "pk")
      (by decide) rfl rfl rfl rfl rfl rfl rfl rfl).1,
   (claim1_amended env0 [("device_id", "dev1"), ("product_key", "pk")]
      ("device_id", "dev1") ("product_key", "pk")
      (by decide) rfl rfl rfl rfl rfl rfl rfl rfl).2.1 (Or.inl rfl)⟩

/-! ### Streaming-loop counter lemmas -/

theorem chainLe_weaken {a b : Nat} {l : List Nat}
    (h : List.Chain' (· ≤ ·) (a :: l)) (hba : b ≤ a) :
    List.Chain' (· ≤ ·) (b :: l) := by
  cases l with
  | nil => simp
  | cons c cs =>
    rw [List.chain'_cons] at h ⊢
    exact ⟨le_trans hba h.1, h.2⟩

theorem streamingCounts_append (a b : List Ev) :
    streamingCounts (a ++ b) = streamingCounts a ++ streamingCounts b := by
  simp [streamingCounts]

theorem loopGo_counts_chain (streams : List String) (due : Nat → Bool) :
    ∀ (iters : List IterOut) (k cnt : Nat),
      List.Chain' (· ≤ ·)
        (cnt :: streamingCounts (loopGo streams due iters k cnt).1) := by
  intro iters
  induction iters with
  | nil => intro k cnt; simp [loopGo, streamingCounts]
  | cons o rest ih =>
    intro k cnt
    cases o with
    | ok =>
      by_cases hd : due k
      · simp only [loopGo, hd, if_true, List.nil_append, streamingCounts_append]
        simp only [streamingCounts, List.filterMap]
        exact List.chain'_cons.mpr ⟨Nat.le_succ cnt, ih (k + 1) (cnt + 1)⟩
      · simp only [loopGo, hd, if_false, List.nil_append, streamingCounts_append]
        simp only [streamingCounts, List.filterMap, List.nil_append]
        exact chainLe_weaken (ih (k + 1) (cnt + 1)) (Nat.le_succ cnt)
    | exn m =>
      by_cases hd : due k
      · simp only [loopGo, hd, if_true, streamingCounts_append]
        simp only [streamingCounts, List.filterMap]
        exact List.chain'_cons.mpr ⟨le_refl cnt, ih (k + 1) cnt⟩
      · simp only [loopGo, hd, if_false, streamingCounts_append]
        simp only [streamingCounts, List.filterMap, List.nil_append]
        exact ih (k + 1) cnt

theorem loopGo_final_count (streams : List String) (due : Nat → Bool) :
    ∀ (iters : List IterOut) (k cnt : Nat),
      (loopGo streams due iters k cnt).2 = cnt + iters.countP (·.isOk) := by
  intro iters
  induction iters with
  | nil => intro k cnt; simp [loopGo]
  | cons o rest ih =>
    intro k cnt
    cases o with
    | ok => simp [loopGo, ih, List.countP_cons, IterOut.isOk]; omega
    | exn m => simp [loopGo, ih, List.countP_cons, IterOut.isOk]

theorem chain_streamPhase (env : Env) (did : String) :
    List.Chain' (· ≤ ·) (streamingCounts (streamPhase env did)) := by
  cases h : env.outletErr with
  | some m => simp [streamPhase, h, streamingCounts]
  | none =>
    have hc := loopGo_counts_chain ((create_outlets did).map (·.suffix))
      env.loop.due env.loop.iters 0 0
    cases he : env.loop.endBy <;>
      simpa [streamPhase, h, he, streamingCounts_append, streamingCounts]
        using hc

theorem chain_waitPhase (env : Env) (did : String) :
    List.Chain' (· ≤ ·) (streamingCounts (waitPhase env did)) := by
  by_cases h : waitSd env
  · simp [waitPhase, h, streamingCounts]
  · have := chain_streamPhase env did
    simpa [waitPhase, h, streamingCounts_append, streamingCounts] using this

theorem chain_sessionPhase (env : Env) (did : String) :
    List.Chain' (· ≤ ·) (streamingCounts (sessionPhase env did)) := by
  cases h : env.createErr with
  | some m => simp [sessionPhase, h, streamingCounts]
  | none =>
    cases h2 : env.sdAfterCreate
    · cases h3 : env.startErr
      · have := chain_waitPhase env did
        simpa [sessionPhase, h, h2, h3, streamingCounts_append,
          streamingCounts] using this
      · simp [sessionPhase, h, h2, h3, streamingCounts]
    · simp [sessionPhase, h, h2, streamingCounts]

theorem chain_postConfig (env : Env) (did : String) :
    List.Chain' (· ≤ ·) (streamingCounts (postConfig env did)) := by
  cases h : env.importErr with
  | some m => simp [postConfig, h, streamingCounts]
  | none =>
    cases h2 : env.sdAfterImport
    · have := chain_sessionPhase env did
      simpa [postConfig, h, h2, streamingCounts_append, streamingCounts]
        using this
    · simp [postConfig, h, h2, streamingCounts]

theorem chain_configPhase (env : Env) :
    List.Chain' (· ≤ ·) (streamingCounts (configPhase env)) := by
  by_cases h : pyStrip env.configLine = ""
  · simp [configPhase, h, streamingCounts]
  · cases hl : env.loads with
    | decodeError m => simp [configPhase, h, hl, streamingCounts]
    | nonDict => simp [configPhase, h, hl, streamingCounts]
    | dict kvs =>
      cases hd : kvs.find? (·.1 = "device_id") with
      | none => simp [configPhase, h, hl, hd, streamingCounts]
      | some p =>
        cases hp : kvs.find? (·.1 = "product_key") with
        | none => simp [configPhase, h, hl, hd, hp, streamingCounts]
        | some q =>
          have := chain_postConfig env p.2
          simpa [configPhase, h, hl, hd, hp] using this

/-- Claim C8: across every run, the `sample_count` values carried by
successive `streaming` status lines form a monotonically non-decreasing
sequence, and `sample_count` is incremented exactly once per completed
extraction+push cycle: the final counter equals the starting counter
plus the number of iterations whose body completed without raising. -/
theorem claim8_sample_count (env : Env) (streams : List String)
    (due : Nat → Bool) (iters : List IterOut) (k cnt : Nat) :
    List.Chain' (· ≤ ·) (streamingCounts (mainTrace env)) ∧
    (loopGo streams due iters k cnt).2 = cnt + iters.countP (·.isOk) := by
  refine ⟨?_, loopGo_final_count streams due iters k cnt⟩
  have := chain_configPhase env
  simpa [mainTrace, streamingCounts_append, streamingCounts] using this

/-! ### Data-extractor lemmas -/

theorem filterMap_ext {α β : Type} (f g : α → Option β) :
    ∀ l : List α, (∀ x ∈ l, f x = g x) → l.filterMap f = l.filterMap g := by
  intro l
  induction l with
  | nil => intro _; rfl
  | cons a as ih =>
    intro h
    simp only [List.filterMap_cons, h a (by simp)]
    cases g a <;> simp [ih fun x hx => h x (by simp [hx])]

theorem getScore_eraseKey_ne {V : Type} (scores : List (String × V))
    (key k : String) (h : k ≠ key) :
    getScore (eraseKey scores key) k = getScore scores k := by
  induction scores with
  | nil => rfl
  | cons e es ih =>
    simp only [eraseKey] at ih ⊢
    by_cases he : e.1 = key
    · rw [List.filter_cons_of_neg (by simp [he])]
      rw [ih]
      simp only [getScore]
      rw [List.find?_cons_of_neg _
        (by simp only [decide_eq_true_eq]; exact fun hc => h (hc ▸ he))]
    · rw [List.filter_cons_of_pos (by simp [he])]
      by_cases hek : e.1 = k
      · simp only [getScore]
        rw [List.find?_cons_of_pos _ (by simp [hek]),
          List.find?_cons_of_pos _ (by simp [hek])]
      · simp only [getScore]
        rw [List.find?_cons_of_neg _ (by simp [hek]),
          List.find?_cons_of_neg _ (by simp [hek])]
        simpa only [getScore] using ih

theorem getScore_eraseKey_self {V : Type} (scores : List (String × V))
    (key : String) :
    getScore (eraseKey scores key) key = none := by
  induction scores with
  | nil => rfl
  | cons e es ih =>
    simp only [eraseKey] at ih ⊢
    by_cases he : e.1 = key
    · rw [List.filter_cons_of_neg (by simp [he])]
      exact ih
    · rw [List.filter_cons_of_pos (by simp [he])]
      simp only [getScore]
      rw [List.find?_cons_of_neg _ (by simp [he])]
      simpa only [getScore] using ih

theorem getScore_none_of_all {V : Type} (scores : List (String × V))
    (key k : String) (hall : ∀ e ∈ scores, e.1 = key) (h : k ≠ key) :
    getScore scores k = none := by
  have hnone : List.find? (fun x => decide (x.1 = k)) scores = none := by
    rw [List.find?_eq_none]
    intro e he
    simp only [decide_eq_true_eq]
    intro hc
    exact h (hc ▸ hall e he)
  simp [getScore, hnone]

/-- Removing the entries of one key from the SCORES snapshot leaves
`push_scores` unchanged, provided that key's own contribution is already
empty: the fan-out processes every other field identically. -/
theorem push_scores_erase {V F : Type} (ops : PyOps V F)
    (scores : List (String × V)) (key : String)
    (hscal : ∀ p ∈ scalar_map, p.2 = key → scalarPush ops scores p = none)
    (hband : ∀ p ∈ band_map, p.2 = key → bandPush ops scores p = none)
    (hpost : key ≠ "posture") :
    push_scores ops scores = push_scores ops (eraseKey scores key) := by
  have hpost' : "posture" ≠ key := fun hc => hpost hc.symm
  by_cases hs : scores.isEmpty
  · rw [List.isEmpty_iff] at hs
    subst hs
    rfl
  · by_cases hf : (eraseKey scores key).isEmpty
    · have hfl : eraseKey scores key = [] := List.isEmpty_iff.mp hf
      have hall : ∀ e ∈ scores, e.1 = key := by
        intro e he
        by_contra hne
        have hm : e ∈ eraseKey scores key := by
          simp only [eraseKey]
          exact List.mem_filter.mpr
            ⟨he, by simp only [decide_eq_true_eq]; exact hne⟩
        rw [hfl] at hm
        simp at hm
      have h1 : scalar_map.filterMap (scalarPush ops scores) = [] := by
        rw [List.filterMap_eq_nil_iff]
        intro p hp
        by_cases hpk : p.2 = key
        · exact hscal p hp hpk
        · simp [scalarPush, getScore_none_of_all scores key p.2 hall hpk]
      have h2 : band_map.filterMap (bandPush ops scores) = [] := by
        rw [List.filterMap_eq_nil_iff]
        intro p hp
        by_cases hpk : p.2 = key
        · exact hband p hp hpk
        · simp [bandPush, getScore_none_of_all scores key p.2 hall hpk]
      have h3 : posturePush ops scores = ([] : List (String × Sample F)) := by
        simp [posturePush,
          getScore_none_of_all scores key "posture" hall hpost']
      unfold push_scores
      rw [if_neg hs, if_pos hf, h1, h2, h3]
      simp
    · have e1 : scalar_map.filterMap (scalarPush ops scores) =
          scalar_map.filterMap (scalarPush ops (eraseKey scores key)) := by
        apply filterMap_ext
        intro p hp
        by_cases hpk : p.2 = key
        · rw [hscal p hp hpk]
          simp [scalarPush, hpk, getScore_eraseKey_self]
        · simp [scalarPush, getScore_eraseKey_ne scores key p.2 hpk]
      have e2 : band_map.filterMap (bandPush ops scores) =
          band_map.filterMap (bandPush ops (eraseKey scores key)) := by
        apply filterMap_ext
        intro p hp
        by_cases hpk : p.2 = key
        · rw [hband p hp hpk]
          simp [bandPush, hpk, getScore_eraseKey_self]
        · simp [bandPush, getScore_eraseKey_ne scores key p.2 hpk]
      have e3 : posturePush ops scores =
          posturePush ops (eraseKey scores key) := by
        simp [posturePush, getScore_eraseKey_ne scores key "posture" hpost']
      unfold push_scores
      rw [if_neg hs, if_neg hf, e1, e2, e3]

/-- Claim C7: in every streaming iteration, a scalar metric value that
cannot be coerced to floating point is dropped silently for that
iteration only — the fan-out behaves exactly as if the field were absent
— and a spectral band whose coerced array does not contain exactly 5
components is likewise dropped silently; in both cases `push_scores`
emits no status at all (its body contains no emit call) and the
remaining fields are processed unchanged. -/
theorem claim7_silent_drop {V F : Type} (ops : PyOps V F)
    (scores : List (String × V)) (suffix key : String) (v : V) :
    ((suffix, key) ∈ scalar_map → getScore scores key = some v →
      ops.pyFloat v = none →
      push_scores ops scores = push_scores ops (eraseKey scores key)) ∧
    ((suffix, key) ∈ band_map → getScore scores key = some v →
      ∀ elts data, ops.pyIter v = some elts →
        elts.mapM ops.pyFloat = some data → data.length ≠ 5 →
        push_scores ops scores = push_scores ops (eraseKey scores key)) ∧
    (push_scores ops scores).2 = [] := by
  refine ⟨?_, ?_, ?_⟩
  · intro hmem hv hf
    simp only [scalar_map, List.mem_cons, List.not_mem_nil, or_false,
      Prod.mk.injEq] at hmem
    apply push_scores_erase
    · intro p hp hpk
      simp [scalarPush, hpk, hv, hf]
    · intro p hp hpk
      exfalso
      simp only [band_map, List.mem_cons, List.not_mem_nil, or_false,
        Prod.mk.injEq] at hp
      rcases hmem with ⟨_, rfl⟩ | ⟨_, rfl⟩ | ⟨_, rfl⟩ | ⟨_, rfl⟩ <;>
        rcases hp with rfl | rfl | rfl | rfl | rfl <;>
        simp at hpk
    · rcases hmem with ⟨_, rfl⟩ | ⟨_, rfl⟩ | ⟨_, rfl⟩ | ⟨_, rfl⟩ <;> decide
  · intro hmem hv elts data hiter hmap hlen
    simp only [band_map, List.mem_cons, List.not_mem_nil, or_false,
      Prod.mk.injEq] at hmem
    apply push_scores_erase
    · intro p hp hpk
      exfalso
      simp only [scalar_map, List.mem_cons, List.not_mem_nil, or_false,
        Prod.mk.injEq] at hp
      rcases hmem with ⟨_, rfl⟩ | ⟨_, rfl⟩ | ⟨_, rfl⟩ | ⟨_, rfl⟩ | ⟨_, rfl⟩ <;>
        rcases hp with rfl | rfl | rfl | rfl <;>
        simp at hpk
    · intro p hp hpk
      simp only [bandPush, hpk, hv, hiter, hmap, Option.some_bind]
      simp [hlen]
    · rcases hmem with ⟨_, rfl⟩ | ⟨_, rfl⟩ | ⟨_, rfl⟩ | ⟨_, rfl⟩ | ⟨_, rfl⟩ <;>
        decide
  · by_cases hs : scores.isEmpty <;> simp [push_scores, hs]

/-- Claim C7 witness: with a concrete non-coercible `focus_score`, the
push list is exactly the one computed with the field absent, and no
status is emitted. -/
theorem claim7_silent_drop_w :
    push_scores ops0 [("focus_score", "nan"), ("poas", "ok")] =
      push_scores ops0
        (eraseKey [("focus_score", "nan"), ("poas", "ok")] "focus_score") ∧
    (push_scores ops0 [("focus_score", "nan"), ("poas", "ok")]).2 = [] :=
  ⟨(claim7_silent_drop ops0 [("focus_score", "nan"), ("poas", "ok")]
      "_focus" "focus_score" "nan").1 (by decide) (by decide) (by decide),
   (claim7_silent_drop ops0 [("focus_score", "nan"), ("poas", "ok")]
      "_focus" "focus_score" "nan").2.2⟩

/-- Claim C8 witness: the increment equation on a concrete iteration
list — two completed cycles and one raising cycle yield a final count
of two. -/
theorem claim8_sample_count_w :
    (loopGo ["s"] (fun _ => false) [.ok, .exn "x", .ok] 0 0).2 =
      0 + [IterOut.ok, IterOut.exn "x", IterOut.ok].countP (·.isOk) :=
  (claim8_sample_count env0 ["s"] (fun _ => false)
    [.ok, .exn "x", .ok] 0 0).2

theorem scalarPush_fst {V F : Type} (ops : PyOps V F)
    (scores : List (String × V)) (p : String × String)
    (q : String × Sample F) (h : scalarPush ops scores p = some q) :
    q.1 = p.1 := by
  simp only [scalarPush, Option.bind_eq_some, Option.map_eq_some'] at h
  obtain ⟨v, hv, f, hf, rfl⟩ := h
  rfl

theorem posturePush_fst {V F : Type} (ops : PyOps V F)
    (scores : List (String × V)) (q : String × Sample F)
    (h : q ∈ posturePush ops scores) : q.1 = "_POSTURE" := by
  unfold posturePush at h
  split at h
  · simp at h
    subst h
    rfl
  · simp at h

theorem bandPush_eq_some {V F : Type} (ops : PyOps V F)
    (scores : List (String × V)) (p : String × String)
    (q : String × Sample F) :
    bandPush ops scores p = some q ↔
      ∃ v elts data, getScore scores p.2 = some v ∧
        ops.pyIter v = some elts ∧ elts.mapM ops.pyFloat = some data ∧
        data.length = 5 ∧ q = (p.1, Sample.floats data) := by
  constructor
  · intro h
    simp only [bandPush, Option.bind_eq_some] at h
    obtain ⟨v, hv, elts, hiter, data, hmap, hq⟩ := h
    by_cases hlen : data.length = 5
    · rw [if_pos hlen] at hq
      injection hq with hq2
      exact ⟨v, elts, data, hv, hiter, hmap, hlen, hq2.symm⟩
    · rw [if_neg hlen] at hq
      cases hq
  · rintro ⟨v, elts, data, hv, hiter, hmap, hlen, rfl⟩
    simp only [bandPush, hv, Option.some_bind, hiter, hmap, if_pos hlen]

/-- Claim C9: in `push_scores`, a spectral band is pushed only when
every component coerces to floating point and the coerced list has
exactly 5 elements; if any component fails to coerce (or the value is
not iterable, or the length is wrong), nothing at all is pushed for that
band in that iteration — no partial push — because the whole-list
coercion happens before the length check and before any push.  The push
for a band suffix exists exactly when the full pipeline succeeds, and
what is pushed is the complete coerced 5-element list. -/
theorem claim9_band_whole {V F : Type} (ops : PyOps V F)
    (scores : List (String × V)) (suffix key : String)
    (hmem : (suffix, key) ∈ band_map) (s : Sample F) :
    (suffix, s) ∈ (push_scores ops scores).1 ↔
      (scores.isEmpty = false ∧ ∃ v elts data,
        getScore scores key = some v ∧ ops.pyIter v = some elts ∧
        elts.mapM ops.pyFloat = some data ∧ data.length = 5 ∧
        s = Sample.floats data) := by
  by_cases hs : scores.isEmpty
  · simp [push_scores, hs]
  · have hsf : scores.isEmpty = false := by simpa using hs
    unfold push_scores
    rw [if_neg hs]
    simp only [List.mem_append, List.mem_filterMap]
    constructor
    · rintro ((⟨p, hp, hpush⟩ | hpost) | ⟨p, hp, hpush⟩)
      · exfalso
        have hfst := scalarPush_fst ops scores p (suffix, s) hpush
        simp only [scalar_map, List.mem_cons, List.not_mem_nil, or_false] at hp
        simp only [band_map, List.mem_cons, List.not_mem_nil, or_false,
          Prod.mk.injEq] at hmem
        rcases hmem with ⟨rfl, _⟩ | ⟨rfl, _⟩ | ⟨rfl, _⟩ | ⟨rfl, _⟩ | ⟨rfl, _⟩ <;>
          rcases hp with rfl | rfl | rfl | rfl <;> simp at hfst
      · exfalso
        have hfst := posturePush_fst ops scores (suffix, s) hpost
        simp only [band_map, List.mem_cons, List.not_mem_nil, or_false,
          Prod.mk.injEq] at hmem
        rcases hmem with ⟨rfl, _⟩ | ⟨rfl, _⟩ | ⟨rfl, _⟩ | ⟨rfl, _⟩ | ⟨rfl, _⟩ <;>
          simp at hfst
      · rw [bandPush_eq_some] at hpush
        obtain ⟨v, elts, data, hv, hiter, hmap, hlen, hqe⟩ := hpush
        have h1 : suffix = p.1 := congrArg Prod.fst hqe
        have h2 : s = Sample.floats data := congrArg Prod.snd hqe
        have hp2 : p.2 = key := by
          simp only [band_map, List.mem_cons, List.not_mem_nil, or_false,
            Prod.mk.injEq] at hp hmem
          rcases hmem with ⟨rfl, rfl⟩ | ⟨rfl, rfl⟩ | ⟨rfl, rfl⟩ |
            ⟨rfl, rfl⟩ | ⟨rfl, rfl⟩ <;>
            rcases hp with rfl | rfl | rfl | rfl | rfl <;>
            first
            | rfl
            | (exfalso; simp at h1)
        rw [hp2] at hv
        exact ⟨hsf, v, elts, data, hv, hiter, hmap, hlen, h2⟩
    · rintro ⟨_, v, elts, data, hv, hiter, hmap, hlen, rfl⟩
      right
      refine ⟨(suffix, key), hmem, ?_⟩
      rw [bandPush_eq_some]
      exact ⟨v, elts, data, hv, hiter, hmap, hlen, rfl⟩

/-- Claim C9 witness: a concrete band value whose five components all
coerce is pushed as the complete coerced list. -/
theorem claim9_band_whole_w :
    ("_alpha", Sample.floats [1, 1, 1, 1, 1]) ∈
      (push_scores ops0 [("alpha", "abcde")]).1 :=
  (claim9_band_whole ops0 [("alpha", "abcde")] "_alpha" "alpha" (by decide)
      (Sample.floats [1, 1, 1, 1, 1])).mpr
    ⟨rfl, "abcde", ["a", "b", "c", "d", "e"], [1, 1, 1, 1, 1],
      rfl, rfl, by decide, rfl, rfl⟩

/-! ### Serialization lemmas: the emitted payload holds no raw newline -/

theorem digitChar_ne_newline (n : Nat) : Nat.digitChar n ≠ '\n' := by
  rcases Nat.lt_or_ge n 16 with h | h
  · interval_cases n <;> decide
  · unfold Nat.digitChar
    repeat rw [if_neg (by omega)]
    decide

theorem toDigitsCore_ne_newline :
    ∀ (f n : Nat) (ds : List Char), (∀ c ∈ ds, c ≠ '\n') →
      ∀ c ∈ Nat.toDigitsCore 10 f n ds, c ≠ '\n' := by
  intro f
  induction f with
  | zero =>
    intro n ds h c hc
    simp only [Nat.toDigitsCore] at hc
    exact h c hc
  | succ f ih =>
    intro n ds h c hc
    simp only [Nat.toDigitsCore] at hc
    split at hc
    · rcases List.mem_cons.mp hc with rfl | hc
      · exact digitChar_ne_newline _
      · exact h c hc
    · refine ih (n / 10) (Nat.digitChar (n % 10) :: ds) ?_ c hc
      intro x hx
      rcases List.mem_cons.mp hx with rfl | hx
      · exact digitChar_ne_newline _
      · exact h x hx

theorem natRepr_ne_newline (n : Nat) : '\n' ∉ (Nat.repr n).data := by
  intro h
  simp only [Nat.repr, Nat.toDigits, List.asString] at h
  exact toDigitsCore_ne_newline (n + 1) n [] (by simp) '\n' h rfl

theorem escapeChar_ne_newline (c : Char) : '\n' ∉ (escapeChar c).data := by
  unfold escapeChar
  repeat' split
  all_goals first
  | decide
  | (simp only [String.data_append]
     intro h
     rcases List.mem_append.mp h with h | h
     · revert h; decide
     · rcases List.mem_cons.mp h with h | h
       · exact digitChar_ne_newline _ h.symm
       · rcases List.mem_cons.mp h with h | h
         · exact digitChar_ne_newline _ h.symm
         · simp at h)
  | (intro h
     simp only [String.singleton] at h
     rcases List.mem_cons.mp h with h | h
     · exact (by assumption : ¬c = '\n') h.symm
     · simp at h)

theorem escapeList_ne_newline : ∀ l : List Char, '\n' ∉ escapeList l
  | [] => by simp [escapeList]
  | c :: cs => by
    simp only [escapeList]
    intro h
    rcases List.mem_append.mp h with h | h
    · exact escapeChar_ne_newline c h
    · exact escapeList_ne_newline cs h

theorem quoteStr_ne_newline (s : String) : '\n' ∉ (quoteStr s).data := by
  simp only [quoteStr, String.data_append]
  intro h
  rcases List.mem_append.mp h with h | h
  · rcases List.mem_append.mp h with h | h
    · revert h; decide
    · exact escapeList_ne_newline s.data h
  · revert h; decide

theorem joinComma_ne_newline :
    ∀ l : List String, (∀ s ∈ l, '\n' ∉ s.data) →
      '\n' ∉ (joinComma l).data
  | [], _ => by simp [joinComma]
  | [x], h => by
    simp only [joinComma]
    exact h x (by simp)
  | x :: y :: xs, h => by
    simp only [joinComma, String.data_append]
    intro hc
    rcases List.mem_append.mp hc with hc | hc
    · rcases List.mem_append.mp hc with hc | hc
      · exact h x (by simp) hc
      · revert hc; decide
    · exact joinComma_ne_newline (y :: xs)
        (fun s hs => h s (List.mem_cons_of_mem x hs)) hc

theorem dumpsVal_ne_newline (v : JVal) : '\n' ∉ (dumpsVal v).data := by
  cases v with
  | jnum n => simpa [dumpsVal] using natRepr_ne_newline n
  | jstr s => simpa [dumpsVal] using quoteStr_ne_newline s
  | jstrArr xs =>
    simp only [dumpsVal, String.data_append]
    intro h
    rcases List.mem_append.mp h with h | h
    · rcases List.mem_append.mp h with h | h
      · revert h; decide
      · refine joinComma_ne_newline (xs.map quoteStr) ?_ h
        intro s hs
        obtain ⟨t, _, rfl⟩ := List.mem_map.mp hs
        exact quoteStr_ne_newline t
    · revert h; decide

theorem dumps_ne_newline (d : List (String × JVal)) :
    '\n' ∉ (dumps d).data := by
  simp only [dumps, String.data_append]
  intro h
  rcases List.mem_append.mp h with h | h
  · rcases List.mem_append.mp h with h | h
    · revert h; decide
    · refine joinComma_ne_newline _ ?_ h
      intro s hs
      obtain ⟨kv, _, rfl⟩ := List.mem_map.mp hs
      simp only [String.data_append]
      intro hc
      rcases List.mem_append.mp hc with hc | hc
      · rcases List.mem_append.mp hc with hc | hc
        · exact quoteStr_ne_newline kv.1 hc
        · revert hc; decide
      · exact dumpsVal_ne_newline kv.2 hc
  · revert h; decide

/-- Claim C10: every call to `emit` produces at most one output line;
on a successful write, the single written line is the compact
serialization followed by the line terminator, and the serialized
payload holds no raw newline — JSON string escaping replaces every
control character — so even an `error` status carrying a multi-line
message occupies exactly one newline-terminated line; a write failure
produces no output, and `emit` is a total function (any exception is
swallowed, never reaching the caller). -/
theorem claim10_emit_single_line (writeOk : Bool)
    (d : List (String × JVal)) :
    (emit writeOk d).length ≤ 1 ∧
    ∀ out ∈ emit writeOk d,
      out = dumps d ++ "\n" ∧ '\n' ∉ (dumps d).data ∧
      out.data.count '\n' = 1 := by
  cases writeOk with
  | false => simp [emit]
  | true =>
    refine ⟨by simp [emit], ?_⟩
    intro out hout
    simp only [emit, if_true, List.mem_singleton] at hout
    subst hout
    refine ⟨rfl, dumps_ne_newline d, ?_⟩
    simp [String.data_append, List.count_append,
      List.count_eq_zero.mpr (dumps_ne_newline d)]

/-- Claim C10 witness: an `error` status carrying a two-line message
still occupies exactly one newline-terminated output line. -/
theorem claim10_emit_single_line_w :
    (emit true (statusDict (.error "line1\nline2"))).length ≤ 1 ∧
    (dumps (statusDict (.error "line1\nline2")) ++ "\n").data.count '\n'
      = 1 :=
  ⟨(claim10_emit_single_line true (statusDict (.error "line1\nline2"))).1,
   ((claim10_emit_single_line true (statusDict (.error "line1\nline2"))).2
      (dumps (statusDict (.error "line1\nline2")) ++ "\n")
      (by simp [emit])).2.2⟩

end FrenzBridge
